import Mathlib

/-!
Shallow embedding of the `log` package (a zap-based structured-logging
facade): configuration, logger construction (`Zap`, `NewZapCore`,
`newWriteSyncer`), key-value coercion (`handleFields`), level mapping
(`logLevel`), and the package-level default-logger plumbing
(`defaultLogger`, `WithContext`, `WithValues`).

Go machine state is made explicit: the `*Config` that `Zap` receives and
may write through is threaded as a value, the package-global `logger`
variable is an explicit `Option` parameter and result, and heap-allocated
`baseLogger` values are modelled by a store (list) with pointers as
indices for the frame properties.
-/

set_option autoImplicit false

namespace LogSpec

/-- A Go `interface{}` value as it occurs at the call sites of this
package: strings, integers, booleans, strongly-typed zap fields, and
slices (a `[]interface{}` passed un-spread arrives as one slice value). -/
inductive GoVal where
  | vStr (s : String) : GoVal
  | vInt (n : Int) : GoVal
  | vBool (b : Bool) : GoVal
  | vField (key : String) (val : GoVal) : GoVal
  | vSlice (elems : List GoVal) : GoVal

/-- A zap structured field, as produced by `zap.Any(key, val)`. -/
def Field : Type := String × GoVal

/-- Type test `args[i].(zap.Field)`. -/
def isZapField : GoVal → Bool
  | GoVal.vField _ _ => true
  | _ => false

/-- Type assertion `key.(string)`: `some` the string when the value is a
string, `none` otherwise. -/
def asString : GoVal → Option String
  | GoVal.vStr s => some s
  | _ => none

/-- The `for` loop of `handleFields` (src/zap.go): walk key positions;
stop on a strongly-typed zap field, on a trailing unmatched key, or on a
non-string key; otherwise convert the pair with `zap.Any` and advance by
two. -/
def fieldsLoop : List GoVal → List Field
  | [] => []
  | a :: rest =>
    if isZapField a then []
    else
      match rest with
      | [] => []
      | v :: rest' =>
        match asString a with
        | some keyStr => (keyStr, v) :: fieldsLoop rest'
        | none => []

/-- Model of `handleFields` (src/zap.go lines 158-186): converts key value pairs to
zap fields, fast-returning `additional` on an empty argument list and
otherwise appending `additional` to the converted prefix. -/
def handleFields (args : List GoVal) (additional : List Field) : List Field :=
  if args.isEmpty then additional
  else fieldsLoop args ++ additional

/-- Flatten a list of well-formed (string-keyed) pairs into the
alternating argument list `[k1, v1, k2, v2, ...]`. -/
def flattenPairs : List Field → List GoVal
  | [] => []
  | (k, v) :: ps => GoVal.vStr k :: v :: flattenPairs ps

/-- The remainders at which the `handleFields` loop stops without
converting anything further: exhausted input, a trailing unmatched key, a
strongly-typed zap field in key position, or a non-string key. -/
def stopsHere : List GoVal → Prop
  | [] => True
  | [_] => True
  | a :: _ :: _ => isZapField a = true ∨ asString a = none

theorem fieldsLoop_stops (rest : List GoVal) (h : stopsHere rest) :
    fieldsLoop rest = [] := by
  match rest with
  | [] => rfl
  | [a] =>
    simp only [fieldsLoop]
    split <;> rfl
  | a :: b :: t =>
    simp only [fieldsLoop]
    rcases h with hf | hs
    · simp [hf]
    · split
      · rfl
      · simp [hs]

theorem fieldsLoop_flatten (ps : List Field) (rest : List GoVal) :
    fieldsLoop (flattenPairs ps ++ rest) = ps ++ fieldsLoop rest := by
  induction ps with
  | nil => simp [flattenPairs]
  | cons p ps ih =>
    obtain ⟨k, v⟩ := p
    show fieldsLoop (GoVal.vStr k :: v :: (flattenPairs ps ++ rest)) = _
    rw [show fieldsLoop (GoVal.vStr k :: v :: (flattenPairs ps ++ rest))
          = (k, v) :: fieldsLoop (flattenPairs ps ++ rest) from rfl, ih]
    rfl

theorem handleFields_eq_loop (args : List GoVal) :
    handleFields args [] = fieldsLoop args := by
  cases args with
  | nil => rfl
  | cons a t => simp [handleFields]

/-- C1: key-value coercion scans alternating key/value pairs in order and
stops at the first malformed element, returning exactly the fields
converted so far; in particular `["a", 1, "b", 2]` yields fields a=1, b=2
in order, `["a", 1, "b"]` yields only a=1, and `[5, "x"]` yields no
fields. -/
theorem handleFields_scans_and_truncates :
    (∀ (ps : List Field) (rest : List GoVal), stopsHere rest →
      handleFields (flattenPairs ps ++ rest) [] = ps)
    ∧ handleFields [GoVal.vStr "a", GoVal.vInt 1, GoVal.vStr "b", GoVal.vInt 2] []
        = [("a", GoVal.vInt 1), ("b", GoVal.vInt 2)]
    ∧ handleFields [GoVal.vStr "a", GoVal.vInt 1, GoVal.vStr "b"] []
        = [("a", GoVal.vInt 1)]
    ∧ handleFields [GoVal.vInt 5, GoVal.vStr "x"] [] = [] := by
  refine ⟨?_, rfl, rfl, rfl⟩
  intro ps rest h
  rw [handleFields_eq_loop, fieldsLoop_flatten, fieldsLoop_stops rest h, List.append_nil]

/-- Witness for C1: the general scan property applied at a concrete
well-formed prefix followed by a malformed remainder. -/
theorem handleFields_scans_and_truncates_witness :
    handleFields (flattenPairs [("a", GoVal.vInt 1)] ++ [GoVal.vInt 5, GoVal.vStr "x"]) []
      = [("a", GoVal.vInt 1)] :=
  handleFields_scans_and_truncates.1 [("a", GoVal.vInt 1)] [GoVal.vInt 5, GoVal.vStr "x"]
    (Or.inr rfl)

/-- The `Config` record (src/config.go). -/
structure Config where
  LogDir : String
  LogFile : String
  MaxSize : Int
  MaxBackups : Int
  MaxAge : Int
  Compress : Bool
  LogLevel : String
  JsonEncode : Bool
  StacktraceLevel : String
  Stdout : Bool
  FilePerLevel : Bool

/-- zapcore.DebugLevel (-1), the lowest severity. -/
def DebugLevel : Int := -1

/-- zapcore.InfoLevel (0). -/
def InfoLevel : Int := 0

/-- zapcore.WarnLevel (1). -/
def WarnLevel : Int := 1

/-- zapcore.ErrorLevel (2). -/
def ErrorLevel : Int := 2

/-- zapcore.FatalLevel (5). -/
def FatalLevel : Int := 5

/-- Model of `strings.ToLower` as it acts on the severity names this package
compares against: lower-case the string character by character. -/
def strToLower (s : String) : String :=
  String.mk (s.data.map Char.toLower)

/-- Model of `logLevel` (src/zap.go lines 194-209): lower-case the string, then the
switch over debug / info / warn, warning / error / fatal, defaulting to
debug. -/
def logLevel (level : String) : Int :=
  if strToLower level = "debug" then DebugLevel
  else if strToLower level = "info" then InfoLevel
  else if strToLower level = "warn" then WarnLevel
  else if strToLower level = "warning" then WarnLevel
  else if strToLower level = "error" then ErrorLevel
  else if strToLower level = "fatal" then FatalLevel
  else DebugLevel

/-- The lumberjack sink built by `newWriteSyncer`: a rotating file,
identified by directory and file name plus the rotation options. -/
structure WriteSyncer where
  dir : String
  filename : String
  maxSize : Int
  maxBackups : Int
  maxAge : Int
  compress : Bool
  localTime : Bool

/-- Model of `newWriteSyncer` (src/zap.go lines 51-67). The Go function writes
through the `*Config` (filling `LogDir` from the `LOG_DIR` environment
variable when empty), so it returns the updated config alongside the
sink; `env` is the value of `os.Getenv("LOG_DIR")`. -/
def newWriteSyncer (env : String) (opts : Config) (fileName : String) :
    Config × WriteSyncer :=
  let fileName := if fileName = "" then opts.LogFile else fileName
  let opts := if opts.LogDir = "" then { opts with LogDir := env } else opts
  (opts, { dir := opts.LogDir, filename := fileName, maxSize := opts.MaxSize,
           maxBackups := opts.MaxBackups, maxAge := opts.MaxAge,
           compress := opts.Compress, localTime := true })

/-- A zapcore.Core as assembled by `NewZapCore`: an encoder choice, a file
sink, an optional stdout mirror, and a level enabler. -/
structure Core where
  jsonEncode : Bool
  ws : WriteSyncer
  stdoutMirror : Bool
  enabled : Int → Bool

/-- Model of `NewZapCore` (src/zap.go lines 70-86): console or JSON encoder, the
file sink from `newWriteSyncer`, optional stdout mirroring, and the given
level enabler; threads the config because `newWriteSyncer` may update it. -/
def NewZapCore (env : String) (opts : Config) (fileName : String)
    (level : Int → Bool) : Config × Core :=
  let p := newWriteSyncer env opts fileName
  (p.1, { jsonEncode := opts.JsonEncode, ws := p.2,
          stdoutMirror := opts.Stdout, enabled := level })

/-- The zap logger assembled by `Zap`: the tee of the built cores plus the
options `zap.AddCaller()`, `zap.AddCallerSkip(2)` and
`zap.AddStacktrace(...)`; `name` and `fields` are the zap logger's
accumulated name and `With`-fields, both empty at construction. -/
structure ZapLogger where
  cores : List Core
  name : String
  fields : List Field
  callerSkip : Int
  stacktraceLevel : Int

/-- Model of `Zap` (src/zap.go lines 17-48): with `FilePerLevel`, four cores for
debug.log / info.log / warn.log / error.log with the four level-enabler
functions; otherwise one core at the configured file filtered at the
atomic level `logLevel(opts.LogLevel)`; then the empty-`StacktraceLevel`
default is written back into the config before `zap.AddStacktrace`.
Returns the final config state alongside the logger. -/
def Zap (env : String) (opts : Config) : Config × ZapLogger :=
  let p :=
    if opts.FilePerLevel then
      let p1 := NewZapCore env opts "debug.log" (fun lev => decide (lev = DebugLevel))
      let p2 := NewZapCore env p1.1 "info.log" (fun lev => decide (lev = InfoLevel))
      let p3 := NewZapCore env p2.1 "warn.log" (fun lev => decide (lev = WarnLevel))
      let p4 := NewZapCore env p3.1 "error.log" (fun lev => decide (ErrorLevel ≤ lev))
      (p4.1, [p1.2, p2.2, p3.2, p4.2])
    else
      let defaultLevel := logLevel opts.LogLevel
      let p1 := NewZapCore env opts opts.LogFile (fun lev => decide (defaultLevel ≤ lev))
      (p1.1, [p1.2])
  let opts := p.1
  let opts := if opts.StacktraceLevel = "" then { opts with StacktraceLevel := "error" }
              else opts
  (opts, { cores := p.2, name := "", fields := [], callerSkip := 2,
           stacktraceLevel := logLevel opts.StacktraceLevel })

/-- zap's `AddStacktrace` semantics: a stack trace is attached to an entry
exactly when its level is at or above the configured threshold. -/
def ZapLogger.stackAttached (l : ZapLogger) (lev : Int) : Bool :=
  decide (l.stacktraceLevel ≤ lev)

/-- A concrete configuration with split-by-severity enabled, for witnesses. -/
def cfgSplit : Config :=
  { LogDir := "logs", LogFile := "app.log", MaxSize := 1, MaxBackups := 2, MaxAge := 3,
    Compress := false, LogLevel := "info", JsonEncode := true, StacktraceLevel := "warn",
    Stdout := false, FilePerLevel := true }

/-- A concrete configuration with split-by-severity disabled and an empty
stack-trace threshold, for witnesses and counterexamples. -/
def cfgSingle : Config :=
  { LogDir := "logs", LogFile := "app.log", MaxSize := 1, MaxBackups := 2, MaxAge := 3,
    Compress := false, LogLevel := "info", JsonEncode := true, StacktraceLevel := "",
    Stdout := false, FilePerLevel := false }

/-- C2: with `FilePerLevel` enabled, the four sinks are debug.log,
info.log, warn.log, error.log in order; a debug emission is enabled
exactly by the debug.log sink, an info emission exactly by the info.log
sink, a warn emission exactly by the warn.log sink, and any emission at
error level or above exactly by the error.log sink. -/
theorem zap_filePerLevel_routing (env : String) (opts : Config)
    (h : opts.FilePerLevel = true) :
    ((Zap env opts).2.cores.map (fun c => c.ws.filename)
        = ["debug.log", "info.log", "warn.log", "error.log"])
    ∧ (∀ c ∈ (Zap env opts).2.cores,
        (c.enabled DebugLevel = true ↔ c.ws.filename = "debug.log")
        ∧ (c.enabled InfoLevel = true ↔ c.ws.filename = "info.log")
        ∧ (c.enabled WarnLevel = true ↔ c.ws.filename = "warn.log")
        ∧ (∀ lev : Int, ErrorLevel ≤ lev →
            (c.enabled lev = true ↔ c.ws.filename = "error.log"))) := by
  constructor
  · simp [Zap, NewZapCore, newWriteSyncer, h]
  · intro c hc
    simp [Zap, NewZapCore, newWriteSyncer, h] at hc
    rcases hc with rfl | rfl | rfl | rfl <;>
      refine ⟨by simp [DebugLevel, InfoLevel, WarnLevel, ErrorLevel],
        by simp [DebugLevel, InfoLevel, WarnLevel, ErrorLevel],
        by simp [DebugLevel, InfoLevel, WarnLevel, ErrorLevel], ?_⟩ <;>
      intro lev hlev <;>
      simp only [ErrorLevel] at hlev <;>
      simp [DebugLevel, InfoLevel, WarnLevel, ErrorLevel] <;>
      omega

/-- Witness for C2: the four file names at a concrete split configuration. -/
theorem zap_filePerLevel_routing_witness :
    (Zap "" cfgSplit).2.cores.map (fun c => c.ws.filename)
      = ["debug.log", "info.log", "warn.log", "error.log"] :=
  (zap_filePerLevel_routing "" cfgSplit rfl).1

/-- C3: with `FilePerLevel` disabled, exactly one sink is built, it writes
to the configured file name, and it enables an emission exactly when the
emission severity is at or above `logLevel(opts.LogLevel)`. -/
theorem zap_singleFile_filter (env : String) (opts : Config)
    (h : opts.FilePerLevel = false) :
    ∃ c, (Zap env opts).2.cores = [c]
      ∧ c.ws.filename = opts.LogFile
      ∧ ∀ lev : Int, (c.enabled lev = true ↔ logLevel opts.LogLevel ≤ lev) := by
  refine ⟨(NewZapCore env opts opts.LogFile
      (fun lev => decide (logLevel opts.LogLevel ≤ lev))).2, ?_, ?_, ?_⟩
  · simp [Zap, h]
  · simp [NewZapCore, newWriteSyncer, ite_self]
  · intro lev
    simp [NewZapCore]

/-- Witness for C3: the single sink at a concrete non-split configuration. -/
theorem zap_singleFile_filter_witness :
    ∃ c, (Zap "" { cfgSplit with FilePerLevel := false }).2.cores = [c]
      ∧ c.ws.filename = { cfgSplit with FilePerLevel := false }.LogFile
      ∧ ∀ lev : Int, (c.enabled lev = true
          ↔ logLevel { cfgSplit with FilePerLevel := false }.LogLevel ≤ lev) :=
  zap_singleFile_filter "" { cfgSplit with FilePerLevel := false } rfl

/-- Counterexample for C4: the string "warning" is not one of
debug/info/warn/error/fatal, yet `logLevel` maps it to the warn level, not
to the debug level. -/
theorem logLevel_unrecognized_cex :
    strToLower "warning" ∉ ["debug", "info", "warn", "error", "fatal"]
    ∧ logLevel "warning" ≠ DebugLevel := by
  constructor
  · decide
  · rw [show logLevel "warning" = WarnLevel from rfl]
    decide

/-- C4 amended: `logLevel` is case-insensitive over
debug/info/warn/warning/error/fatal ("warning" is additionally accepted
as the warn level), and every string outside those six resolves to the
debug level. -/
theorem logLevel_cases (s : String) :
    (strToLower s = "debug" → logLevel s = DebugLevel)
    ∧ (strToLower s = "info" → logLevel s = InfoLevel)
    ∧ (strToLower s = "warn" → logLevel s = WarnLevel)
    ∧ (strToLower s = "warning" → logLevel s = WarnLevel)
    ∧ (strToLower s = "error" → logLevel s = ErrorLevel)
    ∧ (strToLower s = "fatal" → logLevel s = FatalLevel)
    ∧ (strToLower s ∉ ["debug", "info", "warn", "warning", "error", "fatal"]
        → logLevel s = DebugLevel) := by
  refine ⟨?_, ?_, ?_, ?_, ?_, ?_, ?_⟩ <;> intro h
  · simp [logLevel, h]
  · simp [logLevel, h]
  · simp [logLevel, h]
  · simp [logLevel, h]
  · simp [logLevel, h]
  · simp [logLevel, h]
  · simp only [List.mem_cons, List.not_mem_nil, or_false, not_or] at h
    obtain ⟨h1, h2, h3, h4, h5, h6⟩ := h
    simp [logLevel, h1, h2, h3, h4, h5, h6]

/-- Witness for C4 amended: each recognized spelling in a mixed case, and
one unrecognized string. -/
theorem logLevel_cases_witness :
    logLevel "DEBUG" = DebugLevel ∧ logLevel "Info" = InfoLevel
    ∧ logLevel "WARN" = WarnLevel ∧ logLevel "Warning" = WarnLevel
    ∧ logLevel "ERROR" = ErrorLevel ∧ logLevel "Fatal" = FatalLevel
    ∧ logLevel "trace" = DebugLevel :=
  ⟨(logLevel_cases "DEBUG").1 (by decide),
   (logLevel_cases "Info").2.1 (by decide),
   (logLevel_cases "WARN").2.2.1 (by decide),
   (logLevel_cases "Warning").2.2.2.1 (by decide),
   (logLevel_cases "ERROR").2.2.2.2.1 (by decide),
   (logLevel_cases "Fatal").2.2.2.2.2.1 (by decide),
   (logLevel_cases "trace").2.2.2.2.2.2 (by decide)⟩

/-- Counterexample for C5: `Zap` writes through the configuration it is
given; at a config whose stack-trace threshold is empty, the field differs
after construction. -/
theorem zap_mutates_config_cex :
    (Zap "" cfgSingle).1.StacktraceLevel ≠ cfgSingle.StacktraceLevel := by
  rw [show (Zap "" cfgSingle).1.StacktraceLevel = "error" from rfl]
  decide

/-- C5 amended: constructing a logger leaves every configuration field
unchanged except that an empty `StacktraceLevel` is filled with "error"
and an empty `LogDir` is filled with the `LOG_DIR` environment value; in
particular, if both are nonempty the configuration is unchanged. -/
theorem zap_config_frame (env : String) (opts : Config) :
    ((Zap env opts).1.LogFile = opts.LogFile)
    ∧ ((Zap env opts).1.MaxSize = opts.MaxSize)
    ∧ ((Zap env opts).1.MaxBackups = opts.MaxBackups)
    ∧ ((Zap env opts).1.MaxAge = opts.MaxAge)
    ∧ ((Zap env opts).1.Compress = opts.Compress)
    ∧ ((Zap env opts).1.LogLevel = opts.LogLevel)
    ∧ ((Zap env opts).1.JsonEncode = opts.JsonEncode)
    ∧ ((Zap env opts).1.Stdout = opts.Stdout)
    ∧ ((Zap env opts).1.FilePerLevel = opts.FilePerLevel)
    ∧ ((Zap env opts).1.LogDir = if opts.LogDir = "" then env else opts.LogDir)
    ∧ ((Zap env opts).1.StacktraceLevel
        = if opts.StacktraceLevel = "" then "error" else opts.StacktraceLevel) := by
  cases hb : opts.FilePerLevel <;> by_cases hd : opts.LogDir = "" <;>
    by_cases hs : opts.StacktraceLevel = "" <;>
    simp [Zap, NewZapCore, newWriteSyncer, hb, hd, hs]

/-- C8: with an empty `StacktraceLevel`, the constructed logger's
stack-trace threshold is the error level, so a stack trace is attached
exactly to emissions at error level or above. -/
theorem zap_stacktrace_default (env : String) (opts : Config)
    (h : opts.StacktraceLevel = "") :
    ((Zap env opts).2.stacktraceLevel = ErrorLevel)
    ∧ ∀ lev : Int, ((Zap env opts).2.stackAttached lev = true ↔ ErrorLevel ≤ lev) := by
  have hE : logLevel "error" = ErrorLevel := by
    rw [show logLevel "error" = ErrorLevel from rfl]
  have hst : (Zap env opts).2.stacktraceLevel = ErrorLevel := by
    cases hb : opts.FilePerLevel <;> by_cases hd : opts.LogDir = "" <;>
      simp [Zap, NewZapCore, newWriteSyncer, hb, hd, h, hE]
  refine ⟨hst, ?_⟩
  intro lev
  simp [ZapLogger.stackAttached, hst]

/-- Witness for C8: the threshold at a concrete config with empty
stack-trace level. -/
theorem zap_stacktrace_default_witness :
    (Zap "" cfgSingle).2.stacktraceLevel = ErrorLevel :=
  (zap_stacktrace_default "" cfgSingle rfl).1

/-- zap `Logger.Named` semantics (go.uber.org/zap): an empty segment
returns the logger unchanged; otherwise a clone carries the segment
appended to the dotted name. -/
def ZapLogger.Named (log : ZapLogger) (s : String) : ZapLogger :=
  if s = "" then log
  else if log.name = "" then { log with name := s }
  else { log with name := log.name ++ "." ++ s }

/-- zap `Logger.With` semantics (go.uber.org/zap): no fields returns the
logger unchanged; otherwise a clone accumulates the fields. -/
def ZapLogger.With (log : ZapLogger) (fields : List Field) : ZapLogger :=
  if fields.isEmpty then log
  else { log with fields := log.fields ++ fields }

/-- zap `Logger.WithOptions(zap.AddCallerSkip(n))` semantics
(go.uber.org/zap): a clone with the caller-skip depth adjusted. -/
def ZapLogger.addCallerSkip (log : ZapLogger) (n : Int) : ZapLogger :=
  { log with callerSkip := log.callerSkip + n }

/-- Model of `baseLogger` (src/unnamed/part_003): the facade's wrapper around a zap
logger. -/
structure BaseLogger where
  Logger : ZapLogger

/-- Model of `newLoggerWithExtraSkip` (src/zap.go lines 189-191). -/
def newLoggerWithExtraSkip (l : ZapLogger) (callerSkip : Int) : BaseLogger :=
  BaseLogger.mk (l.addCallerSkip callerSkip)

/-- Model of `baseLogger.WithName` (src/zap.go lines 91-94). -/
def BaseLogger.WithName (b : BaseLogger) (name : String) : BaseLogger :=
  newLoggerWithExtraSkip (b.Logger.Named name) (-1)

/-- Model of `baseLogger.WithValues` (src/zap.go lines 96-99). -/
def BaseLogger.WithValues (b : BaseLogger) (keysAndValues : List GoVal) : BaseLogger :=
  newLoggerWithExtraSkip (b.Logger.With (handleFields keysAndValues [])) (-1)

/-- Model of `baseLogger.AddCallerSkip` (src/zap.go lines 87-89). -/
def BaseLogger.AddCallerSkip (b : BaseLogger) (callerSkip : Int) : BaseLogger :=
  newLoggerWithExtraSkip b.Logger callerSkip

/-- The observable content of one emitted record: the logger's bound name,
the message, and the bound fields followed by call-site fields. -/
structure Record where
  name : String
  msg : String
  fields : List Field

/-- One leveled emission through a logger (the zap entry carries the
logger's name and its accumulated `With`-fields before the call-site
fields). -/
def BaseLogger.emit (b : BaseLogger) (msg : String) (fields : List Field) : Record :=
  { name := b.Logger.name, msg := msg, fields := b.Logger.fields ++ fields }

/-- The heap of `baseLogger` allocations: derivation operations read a
cell and append a fresh one, as the Go code builds a new `baseLogger`
around a cloned zap logger. Pointers are indices. -/
abbrev Store := List BaseLogger

/-- Model of `WithName` through a pointer into the store: reads the parent cell and
allocates the derived logger in a fresh cell. -/
def withNameS (st : Store) (p : Nat) (n : String) : Store × Nat :=
  match st[p]? with
  | some b => (st ++ [b.WithName n], st.length)
  | none => (st, p)

/-- Model of `WithValues` through a pointer into the store. -/
def withValuesS (st : Store) (p : Nat) (kvs : List GoVal) : Store × Nat :=
  match st[p]? with
  | some b => (st ++ [b.WithValues kvs], st.length)
  | none => (st, p)

/-- Emission through a pointer into the store. -/
def emitS (st : Store) (p : Nat) (msg : String) : Option Record :=
  (st[p]?).map (fun b => b.emit msg [])

/-- C6: deriving a child via `WithName` or `WithValues` does not mutate
the parent cell, so an emission through the parent after the derivation is
exactly the emission before it — it carries neither the child's bound name
segment nor the child's bound fields. -/
theorem deriving_child_preserves_parent (st : Store) (p : Nat) (n : String)
    (kvs : List GoVal) (msg : String) (h : p < st.length) :
    ((withNameS st p n).1[p]? = st[p]?)
    ∧ ((withValuesS st p kvs).1[p]? = st[p]?)
    ∧ (emitS (withNameS st p n).1 p msg = emitS st p msg)
    ∧ (emitS (withValuesS st p kvs).1 p msg = emitS st p msg) := by
  have hb : st[p]? = some st[p] := List.getElem?_eq_getElem h
  have h1 : (withNameS st p n).1[p]? = st[p]? := by
    simp only [withNameS, hb]
    rw [List.getElem?_append_left h]
    exact hb
  have h2 : (withValuesS st p kvs).1[p]? = st[p]? := by
    simp only [withValuesS, hb]
    rw [List.getElem?_append_left h]
    exact hb
  exact ⟨h1, h2, by simp [emitS, h1], by simp [emitS, h2]⟩

/-- A concrete logger cell for witnesses. -/
def baseA : BaseLogger :=
  BaseLogger.mk { cores := [], name := "root", fields := [("k", GoVal.vInt 7)],
                  callerSkip := 2, stacktraceLevel := 2 }

/-- Witness for C6: the frame property at a concrete one-cell store. -/
theorem deriving_child_preserves_parent_witness :
    ((withNameS [baseA] 0 "child").1[0]? = [baseA][0]?)
    ∧ ((withValuesS [baseA] 0 [GoVal.vStr "a", GoVal.vInt 1]).1[0]? = [baseA][0]?)
    ∧ (emitS (withNameS [baseA] 0 "child").1 0 "m" = emitS [baseA] 0 "m")
    ∧ (emitS (withValuesS [baseA] 0 [GoVal.vStr "a", GoVal.vInt 1]).1 0 "m"
        = emitS [baseA] 0 "m") :=
  deriving_child_preserves_parent [baseA] 0 "child" [GoVal.vStr "a", GoVal.vInt 1] "m"
    (by simp)

/-- Model of `LoggerKey` (src/zap.go line 15). -/
def LoggerKey : String := "_logger"

/-- A value attached to a context: either a value whose dynamic type
satisfies the `Logger` interface (so the `l.(Logger)` assertion in
`WithContext` succeeds) or any other value. -/
inductive CtxVal where
  | loggerVal (l : BaseLogger) : CtxVal
  | otherVal (v : GoVal) : CtxVal

/-- A request-scoped context: key/value pairs, innermost first. `none` at
the use sites models Go's nil context. -/
abbrev Ctx := List (String × CtxVal)

/-- Model of `ctx.Value(key)`: walk outward from the innermost attachment. -/
def ctxValue (ctx : Ctx) (key : String) : Option CtxVal :=
  match ctx with
  | [] => none
  | (k, v) :: rest => if k = key then some v else ctxValue rest key

/-- Model of `baseLogger.WithContext` (src/zap.go lines 105-115): a nil context
returns the package-global logger; otherwise the value under `LoggerKey`
is returned when it satisfies the `Logger` interface, and the
package-global logger otherwise. The receiver is unused in the Go method. -/
def BaseLogger.WithContext (b : BaseLogger) (globalLogger : Option BaseLogger)
    (ctx : Option Ctx) : Option BaseLogger :=
  let _ := b
  match ctx with
  | none => globalLogger
  | some c =>
    match ctxValue c LoggerKey with
    | some (CtxVal.loggerVal l) => some l
    | _ => globalLogger

/-- Model of `New` (src/unnamed/part_003): build the zap logger, wrap it, and
install it as the package-global logger; returns the logger and the new
global state. -/
def New (env : String) (opts : Config) : BaseLogger × Option BaseLogger :=
  let l := BaseLogger.mk (Zap env opts).2
  (l, some l)

/-- Model of `newDefaultLogger` (src/unnamed/part_003): `New` at the built-in
default configuration (`LOG_DIR` directory, JSON encoding, file-per-level;
the remaining fields are Go zero values). -/
def newDefaultLogger (env : String) : BaseLogger × Option BaseLogger :=
  New env { LogDir := env, LogFile := "", MaxSize := 0, MaxBackups := 0, MaxAge := 0,
            Compress := false, LogLevel := "", JsonEncode := true, StacktraceLevel := "",
            Stdout := false, FilePerLevel := true }

/-- Model of `defaultLogger` (src/unnamed/part_003): return the package-global
logger, constructing it first when it is still nil. -/
def defaultLogger (env : String) (g : Option BaseLogger) : BaseLogger × Option BaseLogger :=
  match g with
  | some l => (l, some l)
  | none => newDefaultLogger env

/-- Package-level `WithContext` (src/unnamed/part_003 lines 123-125):
`defaultLogger().WithContext(ctx)`, with the lazily-initialized global in
scope for the method. -/
def pkgWithContext (env : String) (g : Option BaseLogger) (ctx : Option Ctx) :
    Option BaseLogger × Option BaseLogger :=
  let p := defaultLogger env g
  (p.1.WithContext p.2 ctx, p.2)

/-- Package-level `WithValues` (src/unnamed/part_003 lines 119-121): the
variadic slice is passed to the method as a single argument, not spread. -/
def pkgWithValues (env : String) (g : Option BaseLogger) (kvs : List GoVal) :
    BaseLogger × Option BaseLogger :=
  let p := defaultLogger env g
  ((p.1.WithValues [GoVal.vSlice kvs]).AddCallerSkip (-1), p.2)

/-- C7: a context carrying a `Logger` under `LoggerKey` resolves to that
logger; a context with nothing under the key, or a non-`Logger` value
there, resolves to the process-wide default. -/
theorem withContext_lookup (env : String) (g : Option BaseLogger) (c : Ctx) :
    (∀ l, ctxValue c LoggerKey = some (CtxVal.loggerVal l) →
      (pkgWithContext env g (some c)).1 = some l)
    ∧ ((∀ l, ctxValue c LoggerKey ≠ some (CtxVal.loggerVal l)) →
      (pkgWithContext env g (some c)).1 = some (defaultLogger env g).1) := by
  constructor
  · intro l hl
    simp [pkgWithContext, BaseLogger.WithContext, hl]
  · intro hl
    simp only [pkgWithContext, BaseLogger.WithContext]
    cases hv : ctxValue c LoggerKey with
    | none => cases g <;> simp [defaultLogger, newDefaultLogger, New]
    | some v =>
      cases v with
      | loggerVal l => exact absurd hv (hl l)
      | otherVal w => cases g <;> simp [defaultLogger, newDefaultLogger, New]

/-- Witness for C7: a context carrying a logger resolves to it; a context
without the key resolves to the default. -/
theorem withContext_lookup_witness :
    ((pkgWithContext "" none (some [(LoggerKey, CtxVal.loggerVal baseA)])).1 = some baseA)
    ∧ ((pkgWithContext "" none (some [("other", CtxVal.otherVal (GoVal.vInt 3))])).1
        = some (defaultLogger "" none).1) :=
  ⟨(withContext_lookup "" none [(LoggerKey, CtxVal.loggerVal baseA)]).1 baseA rfl,
   (withContext_lookup "" none [("other", CtxVal.otherVal (GoVal.vInt 3))]).2
     (fun l hl => by simp [ctxValue, LoggerKey] at hl)⟩

/-- C10: a nil context never fails: the method returns the package-global
logger without touching the context, and the package-level call returns
the process-wide default logger. -/
theorem withContext_nil (env : String) (g b0 : Option BaseLogger) (b : BaseLogger) :
    (b.WithContext b0 none = b0)
    ∧ ((pkgWithContext env g none).1 = some (defaultLogger env g).1) := by
  constructor
  · rfl
  · cases g <;> simp [pkgWithContext, BaseLogger.WithContext, defaultLogger,
      newDefaultLogger, New]

/-- C9: the package-level `WithValues` passes its argument list as a
single slice, so key-value coercion sees a non-string leading element and
converts nothing: the returned logger carries no fields beyond the
default logger's. -/
theorem pkgWithValues_no_fields (env : String) (g : Option BaseLogger)
    (kvs : List GoVal) (h : kvs ≠ []) :
    (handleFields [GoVal.vSlice kvs] [] = [])
    ∧ ((pkgWithValues env g kvs).1.Logger.fields = (defaultLogger env g).1.Logger.fields) := by
  have _ := h
  constructor
  · rfl
  · cases g <;> rfl

/-- Witness for C9: a concrete non-empty key-value list yields no fields. -/
theorem pkgWithValues_no_fields_witness :
    (handleFields [GoVal.vSlice [GoVal.vStr "a", GoVal.vInt 1]] [] = [])
    ∧ ((pkgWithValues "" none [GoVal.vStr "a", GoVal.vInt 1]).1.Logger.fields
        = (defaultLogger "" none).1.Logger.fields) :=
  pkgWithValues_no_fields "" none [GoVal.vStr "a", GoVal.vInt 1]
    (List.cons_ne_nil _ _)

end LogSpec
